import Mathlib

/-!
Verification development for the kotc-predictor repository.

The TypeScript source is shallowly embedded in Lean 4: JavaScript numbers
are modelled as rationals (ℚ), JS objects as structures, nullable fields as
Option, and JS Records as functions.  `Math.sqrt` (an opaque floating-point
operation) is modelled by passing an explicit square-root function
`sqrtFn : ℚ → ℚ` to the prediction-model functions; theorems either hold for
every such function or constrain it by the defining property of a square
root.  `Math.round` agrees with Lean's `round` (both are `⌊x + 1/2⌋`).
JS `Array.prototype.sort` with a numeric comparator is a stable sort
(ES2019), modelled by the stable insertion sort `sortDescBy` below.
-/

set_option maxHeartbeats 1600000

/-! ## Stable descending sort by a rational key

Models `arr.sort((a, b) => keyB - keyA)`: stable, descending by key. -/

section StableSort

variable {α : Type} (key : α → ℚ)

/-- Insert `x` before the first element whose key is ≤ `key x` (so among
equal keys, `x` — which comes earlier in the input — ends up first). -/
def insertDesc (x : α) : List α → List α
  | [] => [x]
  | y :: ys => if key y ≤ key x then x :: y :: ys else y :: insertDesc x ys

/-- Stable descending insertion sort by `key`. -/
def sortDescBy : List α → List α
  | [] => []
  | x :: xs => insertDesc key x (sortDescBy xs)

theorem perm_insertDesc (x : α) (l : List α) :
    (insertDesc key x l).Perm (x :: l) := by
  induction l with
  | nil => simp [insertDesc]
  | cons y ys ih =>
    simp only [insertDesc]
    split
    · exact List.Perm.refl _
    · exact ((ih.cons y).trans (List.Perm.swap x y ys))

theorem perm_sortDescBy (l : List α) : (sortDescBy key l).Perm l := by
  induction l with
  | nil => simp [sortDescBy]
  | cons x xs ih =>
    exact (perm_insertDesc key x _).trans (ih.cons x)

/-- Descending sortedness: every later element has key ≤ every earlier one. -/
abbrev SortedDesc (l : List α) : Prop :=
  l.Pairwise (fun a b => key b ≤ key a)

theorem sortedDesc_insertDesc {x : α} {l : List α} (h : SortedDesc key l) :
    SortedDesc key (insertDesc key x l) := by
  induction l with
  | nil =>
    simp [insertDesc]
  | cons y ys ih =>
    obtain ⟨hrel, hys⟩ := List.pairwise_cons.mp h
    simp only [insertDesc]
    split
    · rename_i hcond
      refine List.Pairwise.cons ?_ (List.pairwise_cons.mpr ⟨hrel, hys⟩)
      intro z hz
      rcases List.mem_cons.mp hz with rfl | hz
      · exact hcond
      · exact le_trans (hrel z hz) hcond
    · rename_i hcond
      push_neg at hcond
      refine List.Pairwise.cons ?_ (ih hys)
      intro z hz
      have hz' : z ∈ x :: ys := (perm_insertDesc key x ys).mem_iff.mp hz
      rcases List.mem_cons.mp hz' with rfl | hz'
      · exact le_of_lt hcond
      · exact hrel z hz'

theorem sortedDesc_sortDescBy (l : List α) : SortedDesc key (sortDescBy key l) := by
  induction l with
  | nil => simp [sortDescBy]
  | cons x xs ih => exact sortedDesc_insertDesc key ih

/-- Stability, key-class form: inserting `x` into a descending-sorted list
keeps `x` in front of the elements with the same key. -/
theorem filter_insertDesc (x : α) (l : List α) (h : SortedDesc key l) (c : ℚ) :
    (insertDesc key x l).filter (fun a => decide (key a = c)) =
      if key x = c then x :: l.filter (fun a => decide (key a = c))
      else l.filter (fun a => decide (key a = c)) := by
  induction l with
  | nil =>
    by_cases hxc : key x = c <;> simp [insertDesc, hxc]
  | cons y ys ih =>
    obtain ⟨hrel, hys⟩ := List.pairwise_cons.mp h
    simp only [insertDesc]
    split
    · simp only [List.filter_cons]
      by_cases hxc : key x = c <;> simp [hxc]
    · rename_i hcond
      push_neg at hcond
      have hxc_of : key y = c → key x ≠ c := fun hky hkx =>
        absurd (hkx.trans hky.symm) (ne_of_lt hcond)
      simp only [List.filter_cons]
      rw [ih hys]
      by_cases hyc : key y = c
      · rw [if_neg (hxc_of hyc)]
        simp [hyc, hxc_of hyc]
      · simp [hyc]

/-- Stability of the sort: elements sharing any key value `c` appear in the
output in their original input order. -/
theorem filter_sortDescBy (l : List α) (c : ℚ) :
    (sortDescBy key l).filter (fun a => decide (key a = c)) =
      l.filter (fun a => decide (key a = c)) := by
  induction l with
  | nil => simp [sortDescBy]
  | cons x xs ih =>
    simp only [sortDescBy]
    rw [filter_insertDesc key x _ (sortedDesc_sortDescBy key xs) c]
    simp only [List.filter_cons]
    by_cases hxc : key x = c
    · simp [hxc, ih]
    · simp [hxc, ih]

end StableSort

/-! ## Rounding to one decimal place

`Math.round(x * 10) / 10`; JS `Math.round` is `⌊x + 1/2⌋`, as is Lean's
`round` on ℚ. -/

def roundTenth (x : ℚ) : ℚ := (round (x * 10) : ℤ) / 10

theorem roundTenth_mono {x y : ℚ} (h : x ≤ y) : roundTenth x ≤ roundTenth y := by
  unfold roundTenth
  have hr : round (x * 10) ≤ round (y * 10) := by
    simp only [round_eq]
    exact Int.floor_le_floor (by linarith)
  have hq : ((round (x * 10) : ℤ) : ℚ) ≤ ((round (y * 10) : ℤ) : ℚ) := by exact_mod_cast hr
  linarith

/-! ## Data model

`EnhancedPlayerData` (src/src/lib/espn-data.ts): one structure carrying the
union of the fields read by the scoring, prediction and optimizer modules.
JS numbers are ℚ, nullable fields are Option, counts are ℕ. -/

inductive InjuryStatus where
  | OUT | DOUBTFUL | QUESTIONABLE | PROBABLE | HEALTHY
deriving DecidableEq, Repr

structure Player where
  player_id : String
  player_name : String
  name : String
  team_abbrev : String
  position : String
  matchup : String
  opponent_abbrev : String
  headshot : Option String
  games_played : ℕ
  ppg : ℚ
  rpg : ℚ
  apg : ℚ
  mpg : ℚ
  fgp : ℚ
  pra_avg : ℚ
  last_games_pra : List ℚ
  max_pra_last_10 : ℚ
  usage_rate : ℚ
  triple_doubles : ℕ
  spread : Option ℚ
  over_under : Option ℚ
  is_home : Bool
  opp_def_rating : ℚ
  pace : ℚ
  -- `injury_status?` defaults to HEALTHY at every use site (`|| 'HEALTHY'`),
  -- so the JS default is folded into the field.
  injury_status : InjuryStatus
  is_b2b : Bool
  opponent_b2b : Bool
deriving DecidableEq, Repr

/-- `Math.max(...list)` for a nonempty list (every call site guards
against the empty list). -/
def listMax : List ℚ → ℚ
  | [] => 0
  | h :: t => t.foldl max h

/-- `list.reduce((a, b) => a + b, 0)`. -/
def listSum (l : List ℚ) : ℚ := l.foldl (· + ·) 0

/-- `lastGames.reduce((sum, pra, i) => sum + pra * weights[i], 0)` with
`weights[i] = i + 1`. -/
def weightedPraSum (l : List ℚ) : ℚ :=
  (l.enum).foldl (fun sum iv => sum + iv.2 * (iv.1 + 1)) 0

/-- `weights.reduce((a, b) => a + b)` with `weights[i] = i + 1`. -/
def weightSum (n : ℕ) : ℚ := listSum ((List.range n).map (fun (i : ℕ) => (i : ℚ) + 1))

/-- Population variance `lastGames.reduce((s, v) => s + (v - avg)^2, 0) / n`;
`Math.sqrt` of it is supplied externally through `sqrtFn`. -/
def praVariance (l : List ℚ) (avg : ℚ) : ℚ :=
  (l.foldl (fun s v => s + (v - avg) ^ 2) 0) / l.length

/-- The prediction record (numeric fields; the presentation-only
`key_factors` strings and `confidence` label are not needed by any claim
and are omitted). `component_scores` is inlined. -/
structure Prediction where
  player_id : String
  player_name : String
  projected_pra : ℚ
  ceiling_pra : ℚ
  ceiling_score : ℚ
  cs_recent_pra : ℚ
  cs_ceiling_factor : ℚ
  cs_volume : ℚ
  cs_matchup : ℚ
  cs_environment : ℚ
deriving DecidableEq, Repr

/-! ## Prediction model, weighted V1 variant

src/src/lib/prediction-model.ts, first file version (lines 1–336):
"King of the Court Prediction Model V1 (Weighted Scoring)".
All functions take `sqrtFn : ℚ → ℚ` standing for `Math.sqrt`. -/

namespace PM1

structure RecentPra where
  score : ℚ
  avgPra : ℚ
  stdDev : ℚ
  maxPra : ℚ
deriving DecidableEq, Repr

/-- `calculateRecentPraScore` (lines 63–93). -/
def calculateRecentPraScore (sqrtFn : ℚ → ℚ) (player : Player) : RecentPra :=
  let lastGames := player.last_games_pra
  if lastGames = [] then
    { score := 0, avgPra := player.pra_avg, stdDev := 0, maxPra := player.pra_avg }
  else
    let weightedAvg := weightedPraSum lastGames / weightSum lastGames.length
    let avgPra := listSum lastGames / lastGames.length
    let maxPra := listMax lastGames
    let stdDev := if 1 < lastGames.length then sqrtFn (praVariance lastGames avgPra) else 0
    let score := min ((weightedAvg / 70) * 100) 100
    { score := score, avgPra := avgPra, stdDev := stdDev, maxPra := maxPra }

structure CeilingFactor where
  score : ℚ
  ceilingPra : ℚ
deriving DecidableEq, Repr

/-- `calculateCeilingFactor` (lines 98–117). -/
def calculateCeilingFactor (player : Player) (avgPra stdDev maxPra : ℚ) : CeilingFactor :=
  let statCeiling := avgPra + 1.5 * stdDev
  let ceilingPra := maxPra * 0.50 + player.max_pra_last_10 * 0.30 + statCeiling * 0.20
  let tdBonus := min ((player.triple_doubles : ℚ) * 2) 10
  let score := min ((ceilingPra / 65) * 100 + tdBonus) 100
  { score := score, ceilingPra := ceilingPra }

/-- `calculateVolumeScore` (lines 122–140); `||` defaults fire on the JS
falsy value 0. -/
def calculateVolumeScore (player : Player) : ℚ :=
  let usageRate := if player.usage_rate = 0 then 20 else player.usage_rate
  let mpg := if player.mpg = 0 then 28 else player.mpg
  let usageFactor := usageRate / 25
  let minutesFactor := mpg / 34
  let usageBonus : ℚ := if 30 ≤ usageRate then 15 else if 28 ≤ usageRate then 8 else 0
  let minutesBonus : ℚ := if 36 ≤ mpg then 10 else if 34 ≤ mpg then 5 else 0
  min (usageFactor * minutesFactor * 60 + usageBonus + minutesBonus) 100

/-- `calculateMatchupScore` (lines 145–168); the away-underdog test
`!player.is_home && spread && spread > 0` needs a non-null, truthy
(non-zero), positive spread. -/
def calculateMatchupScore (player : Player) : ℚ :=
  -- sequential `score +=` steps whose guards never read `score`, written as
  -- one sum of the increments
  let spreadTerm : ℚ := match player.spread with
    | some s =>
        if |s| ≤ 4 then 15
        else if |s| ≤ 7 then 10
        else if |s| ≤ 10 then 5
        else -5
    | none => 0
  let underdogTerm : ℚ := match player.spread with
    | some s => if ¬player.is_home ∧ 0 < s then 5 else 0
    | none => 0
  min (max (50 + spreadTerm + underdogTerm) 0) 100

/-- `calculateEnvironmentScore` (lines 173–220); only the numeric score is
modelled (`factors` is a list of display strings). -/
def calculateEnvironmentScore (player : Player) : ℚ :=
  let ouTerm : ℚ := match player.over_under with
    | some ou =>
        if 235 ≤ ou then 20
        else if 228 ≤ ou then 12
        else if 220 ≤ ou then 5
        else if ou < 215 then -10
        else 0
    | none => 0
  let spreadTerm : ℚ := match player.spread with
    | some s =>
        if 12 ≤ |s| then -20
        else if 8 ≤ |s| then -10
        else if |s| ≤ 4 then 10
        else 0
    | none => 0
  let homeTerm : ℚ := if player.is_home then 3 else 0
  min (max (50 + ouTerm + spreadTerm + homeTerm) 0) 100

/-- The weighted composite of `predictPlayer` (lines 234–239). -/
def totalCeilingScore (sqrtFn : ℚ → ℚ) (player : Player) : ℚ :=
  let r := calculateRecentPraScore sqrtFn player
  let c := calculateCeilingFactor player r.avgPra r.stdDev r.maxPra
  r.score * 0.30 + c.score * 0.25 + calculateVolumeScore player * 0.20 +
    calculateMatchupScore player * 0.15 + calculateEnvironmentScore player * 0.10

/-- Unrounded `projectedPra` of `predictPlayer` (lines 242–243). -/
def projectedPraRaw (sqrtFn : ℚ → ℚ) (player : Player) : ℚ :=
  let r := calculateRecentPraScore sqrtFn player
  let tcs := totalCeilingScore sqrtFn player
  max (r.avgPra * (tcs / 70)) (r.avgPra * 0.9)

/-- `predictPlayer` (lines 225–319), numeric fields. -/
def predictPlayer (sqrtFn : ℚ → ℚ) (player : Player) : Prediction :=
  let r := calculateRecentPraScore sqrtFn player
  let c := calculateCeilingFactor player r.avgPra r.stdDev r.maxPra
  let volumeScore := calculateVolumeScore player
  let matchupScore := calculateMatchupScore player
  let envScore := calculateEnvironmentScore player
  let tcs := totalCeilingScore sqrtFn player
  { player_id := player.player_id
    player_name := player.player_name
    projected_pra := roundTenth (projectedPraRaw sqrtFn player)
    ceiling_pra := roundTenth c.ceilingPra
    ceiling_score := roundTenth tcs
    cs_recent_pra := roundTenth r.score
    cs_ceiling_factor := roundTenth c.score
    cs_volume := roundTenth volumeScore
    cs_matchup := roundTenth matchupScore
    cs_environment := roundTenth envScore }

/-- `predictAllPlayers` (lines 324–331): map then stable sort descending by
`ceiling_score` (`predictions.sort((a, b) => b.ceiling_score - a.ceiling_score)`). -/
def predictAllPlayers (sqrtFn : ℚ → ℚ) (players : List Player) : List Prediction :=
  sortDescBy (fun p => p.ceiling_score) (players.map (predictPlayer sqrtFn))

end PM1

/-! ## Prediction model, stats-focused variant

src/src/lib/prediction-model.ts, second file version (lines 337–762):
"King of the Court Prediction Model V1 (Stats-Focused)", with hot/cold
streak detection and opponent DRTG / pace / position lookup tables. -/

namespace PM2

/-- `TEAM_DEFENSIVE_RATINGS` (lines 353–360). -/
def TEAM_DEFENSIVE_RATINGS : List (String × ℚ) :=
  [("CLE", 105.2), ("OKC", 106.8), ("BOS", 107.5), ("MEM", 108.1), ("HOU", 108.5),
   ("NYK", 109.2), ("LAC", 109.8), ("ORL", 110.1), ("MIA", 110.5), ("DEN", 110.8),
   ("MIN", 111.0), ("GSW", 111.3), ("LAL", 111.5), ("MIL", 111.8), ("SAC", 112.0),
   ("PHX", 112.3), ("DAL", 112.5), ("IND", 112.8), ("CHI", 113.2), ("BKN", 113.5),
   ("ATL", 114.0), ("TOR", 114.5), ("POR", 115.0), ("SAS", 115.5), ("DET", 116.0),
   ("PHI", 116.2), ("CHA", 116.8), ("UTA", 117.2), ("WAS", 118.5), ("NOP", 118.8)]

/-- `TEAM_PACE` (lines 364–371). -/
def TEAM_PACE : List (String × ℚ) :=
  [("IND", 103.5), ("ATL", 102.8), ("MIL", 102.2), ("SAC", 101.8), ("NOP", 101.5),
   ("DEN", 101.2), ("UTA", 101.0), ("POR", 100.8), ("CHI", 100.5), ("PHX", 100.3),
   ("DAL", 100.0), ("LAL", 99.8), ("BOS", 99.5), ("CHA", 99.3), ("MIN", 99.0),
   ("TOR", 98.8), ("WAS", 98.5), ("BKN", 98.3), ("GSW", 98.0), ("DET", 97.8),
   ("HOU", 97.5), ("SAS", 97.2), ("PHI", 97.0), ("NYK", 96.8), ("LAC", 96.5),
   ("ORL", 96.2), ("MIA", 96.0), ("OKC", 95.8), ("MEM", 95.5), ("CLE", 95.2)]

/-- `POSITION_DEFENSE_MODIFIER` (lines 375–384), flattened to
(position, opponent) pairs. -/
def POSITION_DEFENSE_MODIFIER (pos opp : String) : Option ℚ :=
  match pos with
  | "PG" => List.lookup opp
      [("WAS", 1.08), ("NOP", 1.07), ("CHA", 1.06), ("UTA", 1.05), ("CLE", 0.94), ("OKC", 0.95)]
  | "SG" => List.lookup opp
      [("WAS", 1.07), ("NOP", 1.06), ("DET", 1.05), ("UTA", 1.05), ("CLE", 0.94), ("BOS", 0.95)]
  | "SF" => List.lookup opp
      [("CHA", 1.08), ("WAS", 1.07), ("POR", 1.06), ("UTA", 1.05), ("OKC", 0.94), ("BOS", 0.95)]
  | "PF" => List.lookup opp
      [("CHA", 1.07), ("NOP", 1.06), ("DET", 1.05), ("WAS", 1.05), ("CLE", 0.94), ("OKC", 0.95)]
  | "C" => List.lookup opp
      [("CHA", 1.10), ("WAS", 1.08), ("NOP", 1.07), ("UTA", 1.06), ("CLE", 0.93), ("OKC", 0.94)]
  | _ => none

structure RecentPra where
  score : ℚ
  avgPra : ℚ
  stdDev : ℚ
  maxPra : ℚ
  hotStreak : Bool
  coldStreak : Bool
deriving DecidableEq, Repr

/-- `calculateRecentPraScore` (lines 436–478): 0–100 normalisation against a
60-PRA ceiling, then a +5 hot-streak / −3 cold-streak adjustment applied
AFTER the `Math.min(·, 100)` clamp. -/
def calculateRecentPraScore (sqrtFn : ℚ → ℚ) (player : Player) : RecentPra :=
  let lastGames := player.last_games_pra
  if lastGames = [] then
    { score := 0, avgPra := player.pra_avg, stdDev := 0, maxPra := player.pra_avg,
      hotStreak := false, coldStreak := false }
  else
    let weightedAvg := weightedPraSum lastGames / weightSum lastGames.length
    let avgPra := listSum lastGames / lastGames.length
    let maxPra := listMax lastGames
    let stdDev := if 1 < lastGames.length then sqrtFn (praVariance lastGames avgPra) else 0
    let last3 := lastGames.drop (lastGames.length - 3)
    let last3Avg := if last3 = [] then avgPra else listSum last3 / last3.length
    let hotStreak := decide (avgPra * 1.10 < last3Avg)
    let coldStreak := decide (last3Avg < avgPra * 0.90)
    let score := min ((weightedAvg / 60) * 100) 100 +
      (if hotStreak then 5 else 0) + (if coldStreak then -3 else 0)
    { score := score, avgPra := avgPra, stdDev := stdDev, maxPra := maxPra,
      hotStreak := hotStreak, coldStreak := coldStreak }

/-- `calculateCeilingFactor` (lines 484–502). -/
def calculateCeilingFactor (player : Player) (avgPra stdDev maxPra : ℚ) : PM1.CeilingFactor :=
  let statCeiling := avgPra + 1.5 * stdDev
  let ceilingPra := maxPra * 0.55 + player.max_pra_last_10 * 0.25 + statCeiling * 0.20
  let tdBonus := min ((player.triple_doubles : ℚ) * 3) 15
  let score := min ((ceilingPra / 60) * 100 + tdBonus) 100
  { score := score, ceilingPra := ceilingPra }

/-- `calculateVolumeScore` (lines 508–525). -/
def calculateVolumeScore (player : Player) : ℚ :=
  let usageRate := if player.usage_rate = 0 then 20 else player.usage_rate
  let mpg := if player.mpg = 0 then 28 else player.mpg
  let minutesScore := min ((mpg / 36) * 60) 60
  let usageScore := min ((usageRate / 30) * 40) 40
  let eliteBonus : ℚ :=
    if 36 ≤ mpg ∧ 30 ≤ usageRate then 10
    else if 35 ≤ mpg ∧ 28 ≤ usageRate then 5
    else 0
  min (minutesScore + usageScore + eliteBonus) 100

/-- `calculateMatchupScore` (lines 532–595), numeric parts (display-string
`factors` omitted). `player.position?.toUpperCase() || 'SF'` defaults the
empty string. -/
def calculateMatchupScore (player : Player) : ℚ :=
  let oppAbbrev := player.opponent_abbrev
  let oppDrtg := (List.lookup oppAbbrev TEAM_DEFENSIVE_RATINGS).getD 112
  let oppPace := (List.lookup oppAbbrev TEAM_PACE).getD 100
  let position := if player.position = "" then "SF" else player.position.toUpper
  let positionMod := (POSITION_DEFENSE_MODIFIER position oppAbbrev).getD 1.0
  let drtgTerm : ℚ :=
    if 117 ≤ oppDrtg then 18
    else if 114 ≤ oppDrtg then 10
    else if 112 ≤ oppDrtg then 4
    else if oppDrtg ≤ 107 then -12
    else if oppDrtg ≤ 109 then -6
    else 0
  let posTerm : ℚ :=
    if 1.06 ≤ positionMod then 8
    else if positionMod ≤ 0.95 then -6
    else 0
  let paceTerm : ℚ :=
    if 102 ≤ oppPace then 10
    else if 100 ≤ oppPace then 5
    else if oppPace ≤ 96 then -6
    else 0
  min (max (50 + drtgTerm + posTerm + paceTerm) 0) 100

/-- `calculateEnvironmentScore` (lines 601–647), numeric score only. -/
def calculateEnvironmentScore (player : Player) : ℚ :=
  let ouTerm : ℚ := match player.over_under with
    | some ou =>
        if 235 ≤ ou then 18
        else if 228 ≤ ou then 10
        else if ou < 218 then -12
        else 0
    | none => 0
  let spreadTerm : ℚ := match player.spread with
    | some s =>
        if 14 ≤ |s| then -25
        else if 10 ≤ |s| then -15
        else if |s| ≤ 4 then 10
        else 0
    | none => 0
  let homeTerm : ℚ := if player.is_home then 5 else 0
  min (max (50 + ouTerm + spreadTerm + homeTerm) 0) 100

/-- The weighted composite of `predictPlayer` (lines 662–667):
35% recent + 25% ceiling + 15% volume + 15% matchup + 10% environment. -/
def totalCeilingScore (sqrtFn : ℚ → ℚ) (player : Player) : ℚ :=
  let r := calculateRecentPraScore sqrtFn player
  let c := calculateCeilingFactor player r.avgPra r.stdDev r.maxPra
  r.score * 0.35 + c.score * 0.25 + calculateVolumeScore player * 0.15 +
    calculateMatchupScore player * 0.15 + calculateEnvironmentScore player * 0.10

end PM2

/-! ## Injuries (src/src/lib/injuries.ts) -/

/-- `getInjuryScoreAdjustment` (lines 122–136). -/
def getInjuryScoreAdjustment : InjuryStatus → ℚ
  | .OUT => -1000
  | .DOUBTFUL => -500
  | .QUESTIONABLE => -15
  | .PROBABLE => -3
  | .HEALTHY => 0

/-- `shouldExcludePlayer` (lines 139–141). -/
def shouldExcludePlayer (status : InjuryStatus) : Bool :=
  status = .OUT || status = .DOUBTFUL

/-! ## Scoring models (src/src/lib/scoring.ts)

`ScoredPlayer extends EnhancedPlayerData`; we carry the fields that the
scoring, comparison and optimizer code reads, with the optional rank
fields (`rank_v1?`, `rank_v2?`, `rank_change?`) as Options, `none` being
JS `undefined` before assignment. -/

structure ScoredPlayer where
  player_id : String
  name : String
  team_abbrev : String
  position : String
  v1_score : ℚ
  v2_score : ℚ
  stats_score : ℚ
  context_score : ℚ
  injury_adjustment : ℚ
  rank_v1 : Option ℕ
  rank_v2 : Option ℕ
  rank_change : Option ℤ
deriving DecidableEq, Repr, Inhabited

/-- `calculateStatsScore` (lines 59–71). -/
def calculateStatsScore (p : Player) : ℚ :=
  let pointsScore := p.ppg * 2.5
  let reboundsScore := p.rpg * 1.2
  let assistsScore := p.apg * 1.0
  let efficiencyBonus := (if 0.5 < p.fgp then (5 : ℚ) else 0) + (if 0.55 < p.fgp then 5 else 0)
  pointsScore + reboundsScore + assistsScore + efficiencyBonus

/-- `calculateContextScore` (lines 73–120). -/
def calculateContextScore (p : Player) : ℚ :=
  -- base 50 plus the sequential `score +=` adjustments (whose guards never
  -- read `score`), written as one sum of the increments
  let defenseBonus := (p.opp_def_rating - 110) * 1.5
  let paceBonus := (p.pace - 99) * 1.2
  let homeTerm : ℚ := if p.is_home then 3 else 0
  let b2bTerm : ℚ := if p.is_b2b then -8 else 0
  let oppB2bTerm : ℚ := if p.opponent_b2b then 6 else 0
  let spreadTerm : ℚ := match p.spread with
    | some s =>
        if s < -5 then 4
        else if s < 0 then 2
        else if 5 < s then -3
        else 0
    | none => 0
  let ouTerm : ℚ := match p.over_under with
    | some ou =>
        if 230 < ou then 6
        else if 220 < ou then 3
        else if ou < 210 then -3
        else 0
    | none => 0
  50 + defenseBonus + paceBonus + homeTerm + b2bTerm + oppB2bTerm + spreadTerm + ouTerm

/-- The V1 composite of `scorePlayersV1` (line 26): 75% stats, 25% context,
plus the additive injury adjustment. -/
def v1ScoreOf (p : Player) : ℚ :=
  calculateStatsScore p * 0.75 + calculateContextScore p * 0.25 +
    getInjuryScoreAdjustment p.injury_status

/-- The V2 composite of `scorePlayersV2` (line 46): 25% stats, 75% context. -/
def v2ScoreOf (p : Player) : ℚ :=
  calculateStatsScore p * 0.25 + calculateContextScore p * 0.75 +
    getInjuryScoreAdjustment p.injury_status

/-- `scorePlayersV1` (lines 19–37): fresh records, `v2_score` left 0. -/
def scorePlayersV1 (players : List Player) : List ScoredPlayer :=
  players.map fun p =>
    { player_id := p.player_id, name := p.name, team_abbrev := p.team_abbrev,
      position := p.position,
      v1_score := v1ScoreOf p, v2_score := 0,
      stats_score := calculateStatsScore p, context_score := calculateContextScore p,
      injury_adjustment := getInjuryScoreAdjustment p.injury_status,
      rank_v1 := none, rank_v2 := none, rank_change := none }

/-- `scorePlayersV2` (lines 39–57): fresh records, `v1_score` left 0. -/
def scorePlayersV2 (players : List Player) : List ScoredPlayer :=
  players.map fun p =>
    { player_id := p.player_id, name := p.name, team_abbrev := p.team_abbrev,
      position := p.position,
      v1_score := 0, v2_score := v2ScoreOf p,
      stats_score := calculateStatsScore p, context_score := calculateContextScore p,
      injury_adjustment := getInjuryScoreAdjustment p.injury_status,
      rank_v1 := none, rank_v2 := none, rank_change := none }

/-! ### rankPlayers (lines 122–155), with its in-place mutation made explicit

`rankPlayers` builds `merged` (fresh objects), then executes
`v1Ranked.forEach((p, i) => p.rank_v1 = i + 1)` and the analogous `rank_v2`
and `rank_change` assignments.  `v1Ranked` and `v2Ranked` are shallow copies
(`[...merged]`) holding references to the SAME record objects, so those
assignments mutate the shared records.  We model the heap region holding the
merged records as a `List ScoredPlayer` (the store); references are indices;
each `forEach` pass is a fold of `List.set` updates.  The returned `v1`/`v2`
arrays are the two sorted index lists read back through the final store. -/

/-- The `merged` records at construction time (lines 126–133):
`{...v1Scored[i], v2_score: v2Scored[i].v2_score}`, ranks still unassigned. -/
def rankInitStore (players : List Player) : List ScoredPlayer :=
  players.map fun p =>
    { player_id := p.player_id, name := p.name, team_abbrev := p.team_abbrev,
      position := p.position,
      v1_score := v1ScoreOf p, v2_score := v2ScoreOf p,
      stats_score := calculateStatsScore p, context_score := calculateContextScore p,
      injury_adjustment := getInjuryScoreAdjustment p.injury_status,
      rank_v1 := none, rank_v2 := none, rank_change := none }

/-- `[...merged].sort((a, b) => b.v1_score - a.v1_score)` as a permutation of
store indices (stable, descending). -/
def v1Perm (store : List ScoredPlayer) : List ℕ :=
  sortDescBy (fun i => (store.getD i default).v1_score) (List.range store.length)

def v2Perm (store : List ScoredPlayer) : List ℕ :=
  sortDescBy (fun i => (store.getD i default).v2_score) (List.range store.length)

/-- One in-place field assignment `store[idx].f := ...`. -/
def storeUpdate (store : List ScoredPlayer) (idx : ℕ)
    (f : ScoredPlayer → ScoredPlayer) : List ScoredPlayer :=
  store.set idx (f (store.getD idx default))

/-- `v1Ranked.forEach((p, i) => p.rank_v1 = i + 1)` (line 137). -/
def assignRankV1 (store : List ScoredPlayer) (perm : List ℕ) : List ScoredPlayer :=
  perm.enum.foldl (fun s iv =>
    storeUpdate s iv.2 (fun r => { r with rank_v1 := some (iv.1 + 1) })) store

/-- `v2Ranked.forEach((p, i) => p.rank_v2 = i + 1)` (line 141). -/
def assignRankV2 (store : List ScoredPlayer) (perm : List ℕ) : List ScoredPlayer :=
  perm.enum.foldl (fun s iv =>
    storeUpdate s iv.2 (fun r => { r with rank_v2 := some (iv.1 + 1) })) store

/-- `v1Ranked.forEach(p => { ... p.rank_change = (p.rank_v1 || 0) -
(v2Player?.rank_v2 || 0); ... })` (lines 145–149).  (The local `rankedMap`
built alongside is dead state: it is never returned or read.) -/
def assignRankChange (store : List ScoredPlayer) (perm1 perm2 : List ℕ) :
    List ScoredPlayer :=
  perm1.foldl (fun s idx =>
    let p := s.getD idx default
    let v2j := perm2.find? (fun j => (s.getD j default).player_id == p.player_id)
    let r2 : ℕ := match v2j with
      | some j => ((s.getD j default).rank_v2).getD 0
      | none => 0
    storeUpdate s idx (fun r =>
      { r with rank_change := some ((r.rank_v1.getD 0 : ℤ) - (r2 : ℤ)) })) store

/-- The store after all three mutation passes of `rankPlayers`. -/
def rankFinalStore (players : List Player) : List ScoredPlayer :=
  let store0 := rankInitStore players
  let perm1 := v1Perm store0
  let store1 := assignRankV1 store0 perm1
  let perm2 := v2Perm store1
  let store2 := assignRankV2 store1 perm2
  assignRankChange store2 perm1 perm2

/-- The `v1` array returned by `rankPlayers`: the `v1Ranked` references read
through the final (mutated) store. -/
def rankPlayersV1 (players : List Player) : List ScoredPlayer :=
  let store0 := rankInitStore players
  (v1Perm store0).map fun i => (rankFinalStore players).getD i default

/-- The `v2` array returned by `rankPlayers`. -/
def rankPlayersV2 (players : List Player) : List ScoredPlayer :=
  let store0 := rankInitStore players
  (v2Perm (assignRankV1 store0 (v1Perm store0))).map fun i =>
    (rankFinalStore players).getD i default

/-- A `ScoredPlayer` with its mutable rank fields blanked out; used to state
which fields the `rankPlayers` passes do and do not touch. -/
def eraseRanks (r : ScoredPlayer) : ScoredPlayer :=
  { r with rank_v1 := none, rank_v2 := none, rank_change := none }

/-! ### Model comparison (scoring.ts lines 157–198) -/

structure ModelComparison where
  total_players : ℕ
  rank_changes : ℕ
  top5_overlap : ℕ
  avg_rank_change : ℚ
deriving DecidableEq, Repr

/-- `generateComparison` (lines 166–198), numeric fields.  The top-5 overlap
(lines 186–188) is `Array.from(new Set(v1 top-5 ids)).filter(id =>
v2Top5Set.has(id)).length`: the number of distinct v1-top-5 ids present
among the v2-top-5 ids.  (JS `Set` keeps first-insertion order while
`List.dedup` keeps last occurrences; the count is order-independent.
`biggest_riser`/`biggest_faller` are name+delta display pairs not needed by
any claim and are omitted.) -/
def generateComparison (v1 v2 : List ScoredPlayer) : ModelComparison :=
  let rankChanges := (v1.filter (fun p => p.rank_change ≠ some 0)).length
  let totalChange := listSum (v1.map (fun p => |((p.rank_change.getD 0 : ℤ) : ℚ)|))
  let v1Top5 := ((v1.take 5).map (·.player_id)).dedup
  let v2Top5 := (v2.take 5).map (·.player_id)
  let top5Overlap := (v1Top5.filter (fun id => v2Top5.contains id)).length
  { total_players := v1.length
    rank_changes := rankChanges
    top5_overlap := top5Overlap
    avg_rank_change := if 0 < v1.length then totalChange / v1.length else 0 }

/-- The `top5Overlap` computation of `compareModels`
(src/unnamed/part_000 lines 763–766): it intersects the two top-5 lists by
`player_name`, counting every v1 entry whose NAME occurs among the v2
names — not by `player_id`. -/
def compareModelsTop5Overlap (v1Predictions v2Predictions : List Prediction) : ℕ :=
  let v1TopNames := (v1Predictions.take 5).map (·.player_name)
  let v2TopNames := (v2Predictions.take 5).map (·.player_name)
  (v1TopNames.filter (fun n => v2TopNames.contains n)).length

/-- Modelled from the spec (§4.2): "Top-N overlap is computed by set
intersection on player identifier" — the size of the intersection of the two
top-5 `player_id` sets.  Used to compare against what the code computes. -/
def specIdTop5Overlap (v1Predictions v2Predictions : List Prediction) : ℕ :=
  (((v1Predictions.take 5).map (·.player_id)).toFinset ∩
      ((v2Predictions.take 5).map (·.player_id)).toFinset).card

/-! ## Lineup optimizer (src/src/lib/optimizer.ts) -/

inductive ModelVersion where
  | v1 | v2
deriving DecidableEq, Repr

/-- `DKPlayer extends ScoredPlayer` (lines 6–9); we carry the fields the
optimizer reads. -/
structure DKPlayer where
  player_id : String
  team_abbrev : String
  v1_score : ℚ
  v2_score : ℚ
  salary : ℚ
  dk_position : String
deriving DecidableEq, Repr

structure LineupSlot where
  position : String
  player : Option DKPlayer
deriving DecidableEq, Repr

structure Lineup where
  slots : List LineupSlot
  total_salary : ℚ
  remaining_salary : ℚ
  projected_score : ℚ
  value_score : ℚ
deriving DecidableEq, Repr

structure OptimizationSettings where
  salary_cap : ℚ
  roster_size : ℕ
  positions : List String
  min_salary_per_player : ℚ
  max_players_per_team : ℕ
  model_version : ModelVersion
deriving DecidableEq, Repr

/-- `DEFAULT_KOTC_SETTINGS` (lines 34–41). -/
def DEFAULT_KOTC_SETTINGS : OptimizationSettings :=
  { salary_cap := 50000, roster_size := 6,
    positions := ["G", "G", "F", "F", "UTIL", "UTIL"],
    min_salary_per_player := 3000, max_players_per_team := 3,
    model_version := .v1 }

/-- `POSITION_ELIGIBILITY` (lines 44–52). -/
def POSITION_ELIGIBILITY : String → Option (List String)
  | "PG" => some ["PG", "G", "UTIL"]
  | "SG" => some ["SG", "G", "UTIL"]
  | "SF" => some ["SF", "F", "UTIL"]
  | "PF" => some ["PF", "F", "UTIL"]
  | "C" => some ["C", "F", "UTIL"]
  | "G" => some ["G", "UTIL"]
  | "F" => some ["F", "UTIL"]
  | _ => none

/-- `estimateSalary` (lines 55–68): a step function of
`Math.max(v1_score, v2_score)` (salary in whole dollars, hence ℤ with
`Math.floor`). -/
def salaryFromScore (score : ℚ) : ℤ :=
  if 80 ≤ score then 9000 + ⌊(score - 80) * 50⌋
  else if 65 ≤ score then 7500 + ⌊(score - 65) * 100⌋
  else if 50 ≤ score then 5500 + ⌊(score - 50) * 133⌋
  else if 35 ≤ score then 3500 + ⌊(score - 35) * 133⌋
  else 3000 + ⌊score * 14⌋

def estimateSalary (player : ScoredPlayer) : ℤ :=
  salaryFromScore (max player.v1_score player.v2_score)

/-- `canFillPosition` (lines 79–82). -/
def canFillPosition (playerPos slotPos : String) : Bool :=
  let eligible := (POSITION_ELIGIBILITY playerPos.toUpper).getD ["UTIL"]
  eligible.contains slotPos || slotPos == "UTIL"

/-- The score the optimizer reads for the configured model version
(`settings.model_version === 'v2' ? v2_score : v1_score`). -/
def playerScore (mv : ModelVersion) (p : DKPlayer) : ℚ :=
  match mv with
  | .v2 => p.v2_score
  | .v1 => p.v1_score

/-- JS floating-point division with an unguarded divisor: a zero divisor
yields Infinity (or NaN for 0/0), never a finite number — modelled as
`none`; a nonzero divisor gives the exact quotient. -/
def jsDiv (a b : ℚ) : Option ℚ := if b = 0 then none else some (a / b)

/-- The value-per-salary selection key of `buildLineup`
(lines 111–112): `score / (salary / 1000)`, with NO guard on a zero
salary. -/
def selectionKey (mv : ModelVersion) (p : DKPlayer) : Option ℚ :=
  jsDiv (playerScore mv p) (p.salary / 1000)

/-- The greedy fill loop of `buildLineup` (lines 117–139): for each slot in
template order, take the first candidate (in sorted order) that is unused,
under the team cap, within the salary cap, and position-eligible.  State:
`usedPlayers` (ids), `teamCounts` (the JS Record as a function), running
`totalSalary`.  Returns the slots and the final total salary. -/
def fillSlots (cap : ℚ) (maxPerTeam : ℕ) (cands : List DKPlayer) :
    List String → List String → (String → ℕ) → ℚ → List LineupSlot × ℚ
  | [], _, _, total => ([], total)
  | pos :: rest, used, counts, total =>
    match cands.find? (fun pl =>
        !used.contains pl.player_id &&
        decide (counts pl.team_abbrev < maxPerTeam) &&
        decide (total + pl.salary ≤ cap) &&
        canFillPosition pl.dk_position pos) with
    | none =>
        let r := fillSlots cap maxPerTeam cands rest used counts total
        (⟨pos, none⟩ :: r.1, r.2)
    | some pl =>
        let r := fillSlots cap maxPerTeam cands rest (pl.player_id :: used)
          (fun t => if t = pl.team_abbrev then counts pl.team_abbrev + 1 else counts t)
          (total + pl.salary)
        (⟨pos, some pl⟩ :: r.1, r.2)

/-- `buildLineup` (lines 94–157).  The candidate sort
`[...players].sort(...)` orders by the value key descending; a zero-salary
candidate's key is non-finite in JS (see `selectionKey`), which ℚ cannot
represent — `getD 0` is used there.  Every theorem below about `buildLineup`
is proved via `fillSlots` for an ARBITRARY candidate order, so no statement
depends on where zero-salary candidates land in the sort. -/
def buildLineup (players : List DKPlayer)
    (settings : OptimizationSettings := DEFAULT_KOTC_SETTINGS) : Lineup :=
  let sortedPlayers :=
    sortDescBy (fun p => (selectionKey settings.model_version p).getD 0) players
  let r := fillSlots settings.salary_cap settings.max_players_per_team sortedPlayers
    settings.positions [] (fun _ => 0) 0
  let slots := r.1
  let totalSalary := r.2
  let projectedScore := slots.foldl (fun sum slot =>
    match slot.player with
    | none => sum
    | some pl => sum + playerScore settings.model_version pl) 0
  { slots := slots
    total_salary := totalSalary
    remaining_salary := settings.salary_cap - totalSalary
    projected_score := projectedScore
    value_score := if 0 < totalSalary then projectedScore / (totalSalary / 1000) else 0 }

/-- The players bound to filled slots of a lineup. -/
def filledPlayers (slots : List LineupSlot) : List DKPlayer :=
  slots.filterMap (·.player)

/-! ## Backtesting (src/src/lib/backtest.ts) -/

/-- `PlayerGameResult` (lines 25–35), fields read by `backtestDate`. -/
structure PlayerGameResult where
  player_id : String
  player_name : String
  team : String
  pra : ℚ
deriving DecidableEq, Repr

/-- `BacktestResult` (lines 37–61).  `date` (copied through) and `num_games`
(a re-fetch of the same external data) are I/O-side and omitted. -/
structure BacktestResult where
  num_players_predicted : ℕ
  actual_winner : PlayerGameResult
  actual_top_5 : List PlayerGameResult
  predicted_winner : Option Prediction
  predicted_top_5 : List Prediction
  winner_correct : Bool
  winner_in_top_3 : Bool
  winner_in_top_5 : Bool
  winner_in_top_10 : Bool
  predicted_rank_of_winner : Option ℕ
  predicted_pra : ℚ
  actual_pra : ℚ
  pra_difference : ℚ
deriving DecidableEq, Repr

/-- JS `String.prototype.toLowerCase`, applied character by character
(equivalent to `String.toLower`, written over the character list so that it
evaluates by `decide`). -/
def jsToLower (s : String) : String := ⟨s.data.map Char.toLower⟩

/-- The pure core of `backtestDate` (lines 251–309): given the day's
already-fetched actual results (PRA-sorted, winner first) and the
predictions, build the result record; `null` when there are no actuals.
`findIndex(...) + 1` is 0 when the winner is absent, else the 1-based rank;
name matching is case-insensitive (`toLowerCase`). -/
def backtestDate (actualResults : List PlayerGameResult)
    (predictions : List Prediction) : Option BacktestResult :=
  match actualResults with
  | [] => none
  | actualWinner :: _ =>
    let rank : ℕ :=
      ((predictions.findIdx?
          (fun p => jsToLower p.player_name == jsToLower actualWinner.player_name)).map
        (· + 1)).getD 0
    let predictedPra : ℚ := ((predictions.head?).map (·.projected_pra)).getD 0
    let rankOpt : Option ℕ := if 0 < rank then some rank else none
    let inTop3 : Bool := decide (0 < rank) && decide (rank ≤ 3)
    let inTop5 : Bool := decide (0 < rank) && decide (rank ≤ 5)
    let inTop10 : Bool := decide (0 < rank) && decide (rank ≤ 10)
    some
      { num_players_predicted := predictions.length
        actual_winner := actualWinner
        actual_top_5 := actualResults.take 5
        predicted_winner := predictions.head?
        predicted_top_5 := predictions.take 5
        winner_correct := rank == 1
        winner_in_top_3 := inTop3
        winner_in_top_5 := inTop5
        winner_in_top_10 := inTop10
        predicted_rank_of_winner := rankOpt
        predicted_pra := predictedPra
        actual_pra := actualWinner.pra
        pra_difference := |predictedPra - actualWinner.pra| }

/-! ## Concrete fixtures used by witnesses and counterexamples -/

/-- A neutral player record; fixtures below override individual fields. -/
def basePlayer : Player :=
  { player_id := "p0", player_name := "P Zero", name := "P Zero", team_abbrev := "AAA",
    position := "PG", matchup := "", opponent_abbrev := "", headshot := none,
    games_played := 0, ppg := 0, rpg := 0, apg := 0, mpg := 0, fgp := 0, pra_avg := 0,
    last_games_pra := [], max_pra_last_10 := 0, usage_rate := 0, triple_doubles := 0,
    spread := none, over_under := none, is_home := false, opp_def_rating := 110,
    pace := 99, injury_status := .HEALTHY, is_b2b := false, opponent_b2b := false }

/-- Five identical 70-PRA games: the recent-game variance is 0, so
`Math.sqrt` is applied only at 0, where `fun _ => 0` is exact. -/
def highFlatPlayer : Player := { basePlayer with
  last_games_pra := [70, 70, 70, 70, 70], max_pra_last_10 := 70,
  usage_rate := 30, mpg := 36, spread := some 2, over_under := some 240, is_home := true }

/-- Three 60-PRA games followed by three 80-PRA games: a hot streak
(last-3 average 80 > 1.10 × overall average 70).  The recent-form SCORE of
the stats-focused variant does not depend on the standard deviation at all,
so the `sqrtFn` argument is irrelevant to it. -/
def hotStreakPlayer : Player := { basePlayer with
  last_games_pra := [60, 60, 60, 80, 80, 80] }

/-- A DOUBTFUL player with an absurd 1000 points per game. -/
def doubtfulStar : Player := { basePlayer with injury_status := .DOUBTFUL, ppg := 1000 }

/-- A zero-salary DraftKings candidate. -/
def dkZeroSalary : DKPlayer :=
  { player_id := "z", team_abbrev := "T", v1_score := 50, v2_score := 0, salary := 0,
    dk_position := "G" }

def dkGuardA : DKPlayer :=
  { player_id := "a", team_abbrev := "LAL", v1_score := 80, v2_score := 60, salary := 9000,
    dk_position := "G" }

def dkForwardB : DKPlayer :=
  { player_id := "b", team_abbrev := "BOS", v1_score := 70, v2_score := 50, salary := 8000,
    dk_position := "F" }

def soloPlayer : Player := { basePlayer with player_id := "x9", name := "X" }

def samplePrediction : Prediction :=
  { player_id := "1", player_name := "A", projected_pra := 40, ceiling_pra := 0,
    ceiling_score := 0, cs_recent_pra := 0, cs_ceiling_factor := 0, cs_volume := 0,
    cs_matchup := 0, cs_environment := 0 }

/-- Same display name as `samplePrediction`, different `player_id`. -/
def samePredOtherId : Prediction := { samplePrediction with player_id := "2" }

def actualWinnerFix : PlayerGameResult :=
  { player_id := "w", player_name := "LeBron", team := "LAL", pra := 50 }

/-- Predicted #1 whose name matches `actualWinnerFix` case-insensitively. -/
def predWinnerFix : Prediction := { samplePrediction with player_name := "lebron" }

/-- The `BacktestResult` that `backtestDate` produces on the fixtures above. -/
def backtestResultFix : BacktestResult :=
  { num_players_predicted := 1
    actual_winner := actualWinnerFix
    actual_top_5 := [actualWinnerFix]
    predicted_winner := some predWinnerFix
    predicted_top_5 := [predWinnerFix]
    winner_correct := true
    winner_in_top_3 := true
    winner_in_top_5 := true
    winner_in_top_10 := true
    predicted_rank_of_winner := some 1
    predicted_pra := 40
    actual_pra := 50
    pra_difference := 10 }

/-- A realistically-bounded DOUBTFUL star and HEALTHY role player. -/
def doubtfulRealistic : Player := { basePlayer with
  injury_status := .DOUBTFUL, ppg := 34, rpg := 8, apg := 9, fgp := 0.52,
  opp_def_rating := 118, pace := 103 }

def healthyRealistic : Player := { basePlayer with
  ppg := 10, rpg := 3, apg := 2, fgp := 0.45, opp_def_rating := 108, pace := 97 }

/-! # Theorems -/

/-! ## C1: buildLineup respects the salary cap and the per-team limit -/

/-- Greedy-fill invariant: if the running salary is within the cap and every
running team count is within the limit, both remain so for the completed
slots, counting each team's players among the newly filled slots on top of
its running count. -/
theorem fillSlots_invariant (cap : ℚ) (maxPerTeam : ℕ) (cands : List DKPlayer) :
    ∀ (positions : List String) (used : List String) (counts : String → ℕ) (total : ℚ),
      total ≤ cap →
      (∀ t, counts t ≤ maxPerTeam) →
      (fillSlots cap maxPerTeam cands positions used counts total).2 ≤ cap ∧
      ∀ t, counts t +
          (filledPlayers (fillSlots cap maxPerTeam cands positions used counts total).1).countP
            (fun pl => pl.team_abbrev == t) ≤ maxPerTeam := by
  intro positions
  induction positions with
  | nil =>
    intro used counts total htot hcnt
    refine ⟨htot, fun t => ?_⟩
    simpa [fillSlots, filledPlayers] using hcnt t
  | cons pos rest ih =>
    intro used counts total htot hcnt
    rw [fillSlots]
    split
    · -- no eligible candidate: the slot stays empty
      have h := ih used counts total htot hcnt
      refine ⟨h.1, fun t => ?_⟩
      simpa [filledPlayers, List.filterMap_cons] using h.2 t
    · -- candidate `pl` assigned: find? guarantees the cap and team checks
      rename_i pl hf
      have hpred := List.find?_some hf
      simp only [Bool.and_eq_true, decide_eq_true_eq] at hpred
      obtain ⟨⟨⟨-, hteam⟩, hsal⟩, -⟩ := hpred
      have hcnt' : ∀ t,
          (if t = pl.team_abbrev then counts pl.team_abbrev + 1 else counts t) ≤ maxPerTeam := by
        intro t
        by_cases ht : t = pl.team_abbrev
        · simpa [ht] using hteam
        · simpa [ht] using hcnt t
      have h := ih (pl.player_id :: used)
        (fun t => if t = pl.team_abbrev then counts pl.team_abbrev + 1 else counts t)
        (total + pl.salary) hsal hcnt'
      refine ⟨h.1, fun t => ?_⟩
      have h2 := h.2 t
      simp only [filledPlayers, List.filterMap_cons, List.countP_cons] at h2 ⊢
      by_cases ht : pl.team_abbrev = t
      · subst ht
        simp at h2 ⊢
        omega
      · rw [if_neg (fun hh : t = pl.team_abbrev => ht hh.symm)] at h2
        rw [if_neg (by simp [ht])]
        omega

/-- C1: for every list of salaried players and settings with positive
salary_cap and positive max_players_per_team, the lineup built by
`buildLineup` has total_salary ≤ salary_cap, and no team contributes more
than max_players_per_team players across the filled slots. -/
theorem c1_buildLineup_invariants (players : List DKPlayer)
    (settings : OptimizationSettings)
    (hcap : 0 < settings.salary_cap) (hmax : 0 < settings.max_players_per_team)
    (team : String) :
    (buildLineup players settings).total_salary ≤ settings.salary_cap ∧
    (filledPlayers (buildLineup players settings).slots).countP
        (fun pl => pl.team_abbrev == team) ≤ settings.max_players_per_team := by
  have h := fillSlots_invariant settings.salary_cap settings.max_players_per_team
    (sortDescBy (fun p => (selectionKey settings.model_version p).getD 0) players)
    settings.positions [] (fun _ => 0) 0 (le_of_lt hcap) (fun _ => Nat.zero_le _)
  constructor
  · simpa [buildLineup] using h.1
  · simpa [buildLineup] using h.2 team

/-- C1 witness: the invariants hold concretely for a two-player pool under
the default KOTC settings. -/
theorem c1_buildLineup_invariants_witness :
    ((0 : ℚ) < DEFAULT_KOTC_SETTINGS.salary_cap ∧
      0 < DEFAULT_KOTC_SETTINGS.max_players_per_team) ∧
    ((buildLineup [dkGuardA, dkForwardB] DEFAULT_KOTC_SETTINGS).total_salary ≤
        DEFAULT_KOTC_SETTINGS.salary_cap ∧
      (filledPlayers (buildLineup [dkGuardA, dkForwardB] DEFAULT_KOTC_SETTINGS).slots).countP
          (fun pl => pl.team_abbrev == "LAL") ≤ DEFAULT_KOTC_SETTINGS.max_players_per_team) :=
  ⟨⟨by decide, by decide⟩,
    c1_buildLineup_invariants [dkGuardA, dkForwardB] DEFAULT_KOTC_SETTINGS
      (by decide) (by decide) "LAL"⟩

/-! ## C2: projected and ceiling PRA of the weighted V1 variant -/

/-- C2 counterexample: for a player with five identical 70-PRA recent games
(variance 0, so `Math.sqrt` is evaluated only at 0, where `fun _ => 0` is
exact), high usage and minutes, a close spread and a high total, the
weighted V1 `predictPlayer` returns `ceiling_pra = 70` but
`projected_pra = 93.1` — so `ceiling_pra ≥ projected_pra` is FALSE. -/
theorem c2_counterexample :
    (PM1.predictPlayer (fun _ => 0) highFlatPlayer).ceiling_pra = 70 ∧
    (PM1.predictPlayer (fun _ => 0) highFlatPlayer).projected_pra = 93.1 ∧
    (PM1.predictPlayer (fun _ => 0) highFlatPlayer).ceiling_pra <
      (PM1.predictPlayer (fun _ => 0) highFlatPlayer).projected_pra := by
  have hne : ([70, 70, 70, 70, 70] : List ℚ) ≠ [] := by simp
  norm_num [PM1.predictPlayer, PM1.calculateRecentPraScore, PM1.calculateCeilingFactor,
    PM1.calculateVolumeScore, PM1.calculateMatchupScore, PM1.calculateEnvironmentScore,
    PM1.totalCeilingScore, PM1.projectedPraRaw, highFlatPlayer, basePlayer,
    listSum, listMax, weightedPraSum, weightSum, praVariance, roundTenth, round_eq,
    List.enum, List.enumFrom, List.range, List.range.loop, min_def, max_def, if_neg hne]

/-- C2 (amended): for every square-root function and every player context,
the weighted V1 variant's `projected_pra` is at least the rounded value of
0.9 × the recent average PRA (the 0.9 floor of line 243, up to the final
one-decimal rounding); the `ceiling_pra ≥ projected_pra` half of the
original claim is refuted by `c2_counterexample`. -/
theorem c2_amended_projected_floor (sqrtFn : ℚ → ℚ) (p : Player) :
    roundTenth ((PM1.calculateRecentPraScore sqrtFn p).avgPra * 0.9) ≤
      (PM1.predictPlayer sqrtFn p).projected_pra := by
  have hfloor : (PM1.calculateRecentPraScore sqrtFn p).avgPra * 0.9 ≤
      PM1.projectedPraRaw sqrtFn p := le_max_right _ _
  simpa [PM1.predictPlayer] using roundTenth_mono hfloor

/-! ## C4: predictAllPlayers sorts descending by ceiling score, stably -/

/-- C4: for every square-root function and player list, `predictAllPlayers`
returns exactly one prediction per input player (a permutation of the
per-player map), sorted descending by `ceiling_score`, and the sort is
stable: predictions sharing any composite score value keep their input
relative order. -/
theorem c4_predictAllPlayers_sorted_stable (sqrtFn : ℚ → ℚ) (players : List Player) :
    (PM1.predictAllPlayers sqrtFn players).Perm
        (players.map (PM1.predictPlayer sqrtFn)) ∧
    (PM1.predictAllPlayers sqrtFn players).Pairwise
        (fun a b => b.ceiling_score ≤ a.ceiling_score) ∧
    ∀ c : ℚ,
      (PM1.predictAllPlayers sqrtFn players).filter
          (fun p => decide (p.ceiling_score = c)) =
        (players.map (PM1.predictPlayer sqrtFn)).filter
          (fun p => decide (p.ceiling_score = c)) :=
  ⟨perm_sortDescBy _ _, sortedDesc_sortDescBy _ _, fun c => filter_sortDescBy _ _ c⟩

/-! ## C10: backtestDate winner-flag implication chain -/

/-- C10: every `BacktestResult` produced by `backtestDate` satisfies
winner_correct → winner_in_top_3 → winner_in_top_5 → winner_in_top_10,
its predicted_rank_of_winner is null or a 1-based rank ≥ 1, and
winner_correct holds exactly when that rank is 1. -/
theorem c10_backtest_flags (actualResults : List PlayerGameResult)
    (predictions : List Prediction) (r : BacktestResult)
    (h : backtestDate actualResults predictions = some r) :
    (r.winner_correct = true → r.winner_in_top_3 = true) ∧
    (r.winner_in_top_3 = true → r.winner_in_top_5 = true) ∧
    (r.winner_in_top_5 = true → r.winner_in_top_10 = true) ∧
    (r.predicted_rank_of_winner = none ∨
      ∃ k, r.predicted_rank_of_winner = some k ∧ 1 ≤ k) ∧
    (r.winner_correct = true ↔ r.predicted_rank_of_winner = some 1) := by
  cases actualResults with
  | nil => simp [backtestDate] at h
  | cons w rest =>
    simp only [backtestDate, Option.some.injEq] at h
    subst h
    simp only
    generalize (((predictions.findIdx?
        (fun p => jsToLower p.player_name == jsToLower w.player_name)).map (· + 1)).getD 0) = n
    refine ⟨?_, ?_, ?_, ?_, ?_⟩
    · simp only [beq_iff_eq, Bool.and_eq_true, decide_eq_true_eq]
      omega
    · simp only [Bool.and_eq_true, decide_eq_true_eq]
      omega
    · simp only [Bool.and_eq_true, decide_eq_true_eq]
      omega
    · by_cases h0 : 0 < n
      · exact Or.inr ⟨n, by simp [h0], h0⟩
      · exact Or.inl (by simp [h0])
    · by_cases h0 : 0 < n
      · simp only [beq_iff_eq, if_pos h0, Option.some.injEq]
      · simp only [beq_iff_eq, if_neg h0]
        constructor
        · intro h1
          omega
        · intro h1
          exact absurd h1 (by simp)

/-- C10 witness: applied to one actual result and one matching prediction. -/
theorem c10_backtest_flags_witness :
    (backtestDate [actualWinnerFix] [predWinnerFix] = some backtestResultFix) ∧
    ((backtestResultFix.winner_correct = true → backtestResultFix.winner_in_top_3 = true) ∧
      (backtestResultFix.winner_in_top_3 = true → backtestResultFix.winner_in_top_5 = true) ∧
      (backtestResultFix.winner_in_top_5 = true → backtestResultFix.winner_in_top_10 = true) ∧
      (backtestResultFix.predicted_rank_of_winner = none ∨
        ∃ k, backtestResultFix.predicted_rank_of_winner = some k ∧ 1 ≤ k) ∧
      (backtestResultFix.winner_correct = true ↔
        backtestResultFix.predicted_rank_of_winner = some 1)) :=
  by
  have hname : (jsToLower "lebron" == jsToLower "LeBron") = true := by decide
  have h : backtestDate [actualWinnerFix] [predWinnerFix] = some backtestResultFix := by
    simp only [backtestDate, actualWinnerFix, predWinnerFix, samplePrediction,
      backtestResultFix, List.findIdx?_cons, List.findIdx?_nil, hname, if_true,
      Option.map_some, Option.getD_some, Option.some.injEq]
    norm_num
  exact ⟨h, c10_backtest_flags [actualWinnerFix] [predWinnerFix] backtestResultFix h⟩

/-! ## C6: top-5 overlap — player_id in generateComparison, but NAME in compareModels -/

/-- Counting distinct members of `A` that occur in `B` computes the
cardinality of the intersection of the two id sets. -/
theorem length_dedup_filter_mem (A B : List String) :
    (A.dedup.filter (fun id => B.contains id)).length =
      (A.toFinset ∩ B.toFinset).card := by
  have hnd : (A.dedup.filter (fun id => B.contains id)).Nodup :=
    A.nodup_dedup.filter _
  rw [← List.toFinset_card_of_nodup hnd]
  congr 1
  ext x
  simp [List.mem_filter, List.mem_dedup, List.mem_toFinset]

/-- C6 counterexample: two singleton rankings whose only entries share the
display name "A" but have different player ids.  `compareModels` reports a
top-5 overlap of 1, while the spec's id-set intersection is empty — the
overlap is computed by matching name strings, refuting the claim. -/
theorem c6_counterexample :
    compareModelsTop5Overlap [samplePrediction] [samePredOtherId] = 1 ∧
    specIdTop5Overlap [samplePrediction] [samePredOtherId] = 0 := by
  constructor
  · decide
  · decide

/-- C6 (amended): `generateComparison` (scoring.ts) does compute the top-5
overlap by set intersection on `player_id`; the claim fails only for
`compareModels` (part_000), which matches on `player_name` (see
`c6_counterexample`). -/
theorem c6_amended_generateComparison_by_id (v1 v2 : List ScoredPlayer) :
    (generateComparison v1 v2).top5_overlap =
      (((v1.take 5).map (·.player_id)).toFinset ∩
        ((v2.take 5).map (·.player_id)).toFinset).card := by
  simp only [generateComparison]
  exact length_dedup_filter_mem _ _

/-! ## C7: zero divisors in the optimizer ratios -/

/-- C7 counterexample: a zero-salary candidate's value-per-salary selection
key in `buildLineup` is NOT a guarded zero: the division
`score / (salary / 1000)` happens with divisor 0 (Infinity/NaN in JS,
`none` in this model). -/
theorem c7_counterexample :
    dkZeroSalary.salary = 0 ∧
    selectionKey ModelVersion.v1 dkZeroSalary = none ∧
    selectionKey ModelVersion.v1 dkZeroSalary ≠ some 0 := by
  refine ⟨rfl, ?_, ?_⟩ <;> simp [selectionKey, jsDiv, dkZeroSalary, playerScore]

/-- C7 (amended): the returned lineup's `value_score` IS guarded — it is 0
whenever `total_salary` is 0 — but the per-candidate selection key is
unguarded: with salary 0 it is non-finite (`none`), not zero
(see `c7_counterexample`). -/
theorem c7_amended_value_score_guarded (players : List DKPlayer)
    (settings : OptimizationSettings) (p : DKPlayer)
    (htotal : (buildLineup players settings).total_salary = 0)
    (hp : p.salary = 0) :
    (buildLineup players settings).value_score = 0 ∧
    selectionKey settings.model_version p = none := by
  constructor
  · simp only [buildLineup] at htotal ⊢
    rw [htotal]
    norm_num
  · simp [selectionKey, jsDiv, hp]

/-- C7 witness: on an empty candidate pool the lineup's total salary is 0
and its value_score is the guarded 0; the zero-salary candidate's key is
non-finite. -/
theorem c7_amended_value_score_guarded_witness :
    ((buildLineup [] DEFAULT_KOTC_SETTINGS).total_salary = 0 ∧
      dkZeroSalary.salary = 0) ∧
    ((buildLineup [] DEFAULT_KOTC_SETTINGS).value_score = 0 ∧
      selectionKey DEFAULT_KOTC_SETTINGS.model_version dkZeroSalary = none) := by
  have h1 : (buildLineup [] DEFAULT_KOTC_SETTINGS).total_salary = 0 := by decide
  exact ⟨⟨h1, rfl⟩,
    c7_amended_value_score_guarded [] DEFAULT_KOTC_SETTINGS dkZeroSalary h1 rfl⟩

/-! ## C8: estimateSalary is a monotone step function of the score -/

theorem sfs_ge80 {s : ℚ} (h : 80 ≤ s) : 9000 ≤ salaryFromScore s := by
  simp only [salaryFromScore, if_pos h]
  have h0 : (0 : ℤ) ≤ ⌊(s - 80) * 50⌋ := Int.floor_nonneg.mpr (by linarith)
  omega

theorem sfs_ge65 {s : ℚ} (h : 65 ≤ s) : 7500 ≤ salaryFromScore s := by
  by_cases h8 : 80 ≤ s
  · have := sfs_ge80 h8
    omega
  · simp only [salaryFromScore, if_neg h8, if_pos h]
    have h0 : (0 : ℤ) ≤ ⌊(s - 65) * 100⌋ := Int.floor_nonneg.mpr (by linarith)
    omega

theorem sfs_ge50 {s : ℚ} (h : 50 ≤ s) : 5500 ≤ salaryFromScore s := by
  by_cases h6 : 65 ≤ s
  · have := sfs_ge65 h6
    omega
  · have h8 : ¬ (80 : ℚ) ≤ s := fun hc => h6 (by linarith)
    simp only [salaryFromScore, if_neg h8, if_neg h6, if_pos h]
    have h0 : (0 : ℤ) ≤ ⌊(s - 50) * 133⌋ := Int.floor_nonneg.mpr (by linarith)
    omega

theorem sfs_ge35 {s : ℚ} (h : 35 ≤ s) : 3500 ≤ salaryFromScore s := by
  by_cases h5 : 50 ≤ s
  · have := sfs_ge50 h5
    omega
  · have h8 : ¬ (80 : ℚ) ≤ s := fun hc => h5 (by linarith)
    have h6 : ¬ (65 : ℚ) ≤ s := fun hc => h5 (by linarith)
    simp only [salaryFromScore, if_neg h8, if_neg h6, if_neg h5, if_pos h]
    have h0 : (0 : ℤ) ≤ ⌊(s - 35) * 133⌋ := Int.floor_nonneg.mpr (by linarith)
    omega

theorem sfs_lt35 {s : ℚ} (h : s < 35) : salaryFromScore s ≤ 3489 := by
  have h8 : ¬ (80 : ℚ) ≤ s := by linarith
  have h6 : ¬ (65 : ℚ) ≤ s := by linarith
  have h5 : ¬ (50 : ℚ) ≤ s := by linarith
  have h3 : ¬ (35 : ℚ) ≤ s := by linarith
  simp only [salaryFromScore, if_neg h8, if_neg h6, if_neg h5, if_neg h3]
  have h0 : ⌊s * 14⌋ < 490 := Int.floor_lt.mpr (by push_cast; linarith)
  omega

theorem sfs_lt50 {s : ℚ} (h : s < 50) : salaryFromScore s ≤ 5494 := by
  by_cases h3 : 35 ≤ s
  · have h8 : ¬ (80 : ℚ) ≤ s := by linarith
    have h6 : ¬ (65 : ℚ) ≤ s := by linarith
    have h5 : ¬ (50 : ℚ) ≤ s := by linarith
    simp only [salaryFromScore, if_neg h8, if_neg h6, if_neg h5, if_pos h3]
    have h0 : ⌊(s - 35) * 133⌋ < 1995 := Int.floor_lt.mpr (by push_cast; linarith)
    omega
  · have := sfs_lt35 (lt_of_not_le h3)
    omega

theorem sfs_lt65 {s : ℚ} (h : s < 65) : salaryFromScore s ≤ 7494 := by
  by_cases h5 : 50 ≤ s
  · have h8 : ¬ (80 : ℚ) ≤ s := by linarith
    have h6 : ¬ (65 : ℚ) ≤ s := by linarith
    simp only [salaryFromScore, if_neg h8, if_neg h6, if_pos h5]
    have h0 : ⌊(s - 50) * 133⌋ < 1995 := Int.floor_lt.mpr (by push_cast; linarith)
    omega
  · have := sfs_lt50 (lt_of_not_le h5)
    omega

theorem sfs_lt80 {s : ℚ} (h : s < 80) : salaryFromScore s ≤ 8999 := by
  by_cases h6 : 65 ≤ s
  · have h8 : ¬ (80 : ℚ) ≤ s := by linarith
    simp only [salaryFromScore, if_neg h8, if_pos h6]
    have h0 : ⌊(s - 65) * 100⌋ < 1500 := Int.floor_lt.mpr (by push_cast; linarith)
    omega
  · have := sfs_lt65 (lt_of_not_le h6)
    omega

/-- The salary step function is monotone in the score. -/
theorem salaryFromScore_mono {s1 s2 : ℚ} (h : s1 ≤ s2) :
    salaryFromScore s1 ≤ salaryFromScore s2 := by
  by_cases h2a : 80 ≤ s2
  · by_cases h1a : 80 ≤ s1
    · simp only [salaryFromScore, if_pos h1a, if_pos h2a]
      have := Int.floor_le_floor (show (s1 - 80) * 50 ≤ (s2 - 80) * 50 by linarith)
      omega
    · have hu := sfs_lt80 (lt_of_not_le h1a)
      have hl := sfs_ge80 h2a
      omega
  · by_cases h2b : 65 ≤ s2
    · by_cases h1b : 65 ≤ s1
      · have h1a : ¬ (80 : ℚ) ≤ s1 := fun hc => h2a (le_trans hc h)
        simp only [salaryFromScore, if_neg h1a, if_neg h2a, if_pos h1b, if_pos h2b]
        have := Int.floor_le_floor (show (s1 - 65) * 100 ≤ (s2 - 65) * 100 by linarith)
        omega
      · have hu := sfs_lt65 (lt_of_not_le h1b)
        have hl := sfs_ge65 h2b
        omega
    · by_cases h2c : 50 ≤ s2
      · by_cases h1c : 50 ≤ s1
        · have h1a : ¬ (80 : ℚ) ≤ s1 := fun hc => h2a (le_trans hc h)
          have h1b : ¬ (65 : ℚ) ≤ s1 := fun hc => h2b (le_trans hc h)
          simp only [salaryFromScore, if_neg h1a, if_neg h2a, if_neg h1b, if_neg h2b,
            if_pos h1c, if_pos h2c]
          have := Int.floor_le_floor (show (s1 - 50) * 133 ≤ (s2 - 50) * 133 by linarith)
          omega
        · have hu := sfs_lt50 (lt_of_not_le h1c)
          have hl := sfs_ge50 h2c
          omega
      · by_cases h2d : 35 ≤ s2
        · by_cases h1d : 35 ≤ s1
          · have h1a : ¬ (80 : ℚ) ≤ s1 := fun hc => h2a (le_trans hc h)
            have h1b : ¬ (65 : ℚ) ≤ s1 := fun hc => h2b (le_trans hc h)
            have h1c : ¬ (50 : ℚ) ≤ s1 := fun hc => h2c (le_trans hc h)
            simp only [salaryFromScore, if_neg h1a, if_neg h2a, if_neg h1b, if_neg h2b,
              if_neg h1c, if_neg h2c, if_pos h1d, if_pos h2d]
            have := Int.floor_le_floor (show (s1 - 35) * 133 ≤ (s2 - 35) * 133 by linarith)
            omega
          · have hu := sfs_lt35 (lt_of_not_le h1d)
            have hl := sfs_ge35 h2d
            omega
        · have h1a : ¬ (80 : ℚ) ≤ s1 := fun hc => h2a (le_trans hc h)
          have h1b : ¬ (65 : ℚ) ≤ s1 := fun hc => h2b (le_trans hc h)
          have h1c : ¬ (50 : ℚ) ≤ s1 := fun hc => h2c (le_trans hc h)
          have h1d : ¬ (35 : ℚ) ≤ s1 := fun hc => h2d (le_trans hc h)
          simp only [salaryFromScore, if_neg h1a, if_neg h2a, if_neg h1b, if_neg h2b,
            if_neg h1c, if_neg h2c, if_neg h1d, if_neg h2d]
          have := Int.floor_le_floor (show s1 * 14 ≤ s2 * 14 by linarith)
          omega

/-- C8: `estimateSalary` is monotone: if one scored player's
`max(v1_score, v2_score)` is ≤ another's, so is the estimated salary. -/
theorem c8_estimateSalary_monotone (p q : ScoredPlayer)
    (h : max p.v1_score p.v2_score ≤ max q.v1_score q.v2_score) :
    estimateSalary p ≤ estimateSalary q :=
  salaryFromScore_mono h

/-- C8 witness: applied to two concretely scored players. -/
theorem c8_estimateSalary_monotone_witness :
    (max (ScoredPlayer.v1_score ⟨"1", "A", "AAA", "PG", 40, 30, 0, 0, 0, none, none, none⟩)
        (ScoredPlayer.v2_score ⟨"1", "A", "AAA", "PG", 40, 30, 0, 0, 0, none, none, none⟩) ≤
      max (ScoredPlayer.v1_score ⟨"2", "B", "BBB", "C", 82, 70, 0, 0, 0, none, none, none⟩)
        (ScoredPlayer.v2_score ⟨"2", "B", "BBB", "C", 82, 70, 0, 0, 0, none, none, none⟩)) ∧
    estimateSalary ⟨"1", "A", "AAA", "PG", 40, 30, 0, 0, 0, none, none, none⟩ ≤
      estimateSalary ⟨"2", "B", "BBB", "C", 82, 70, 0, 0, 0, none, none, none⟩ := by
  have h : max (ScoredPlayer.v1_score ⟨"1", "A", "AAA", "PG", 40, 30, 0, 0, 0, none, none, none⟩)
        (ScoredPlayer.v2_score ⟨"1", "A", "AAA", "PG", 40, 30, 0, 0, 0, none, none, none⟩) ≤
      max (ScoredPlayer.v1_score ⟨"2", "B", "BBB", "C", 82, 70, 0, 0, 0, none, none, none⟩)
        (ScoredPlayer.v2_score ⟨"2", "B", "BBB", "C", 82, 70, 0, 0, 0, none, none, none⟩) := by
    norm_num [max_def]
  exact ⟨h, c8_estimateSalary_monotone _ _ h⟩

/-! ## C5: injury adjustments and ranking position -/

/-- Stats-score bounds under realistic per-game stat ranges. -/
theorem calculateStatsScore_bounds (p : Player)
    (hppg : 0 ≤ p.ppg ∧ p.ppg ≤ 60) (hrpg : 0 ≤ p.rpg ∧ p.rpg ≤ 30)
    (hapg : 0 ≤ p.apg ∧ p.apg ≤ 30) :
    0 ≤ calculateStatsScore p ∧ calculateStatsScore p ≤ 226 := by
  obtain ⟨h1, h2⟩ := hppg
  obtain ⟨h3, h4⟩ := hrpg
  obtain ⟨h5, h6⟩ := hapg
  unfold calculateStatsScore
  split_ifs <;> constructor <;> linarith

/-- Context-score bounds under realistic defensive-rating and pace ranges. -/
theorem calculateContextScore_bounds (p : Player)
    (hdef : 100 ≤ p.opp_def_rating ∧ p.opp_def_rating ≤ 125)
    (hpace : 90 ≤ p.pace ∧ p.pace ≤ 110) :
    10.2 ≤ calculateContextScore p ∧ calculateContextScore p ≤ 104.7 := by
  obtain ⟨h1, h2⟩ := hdef
  obtain ⟨h3, h4⟩ := hpace
  simp only [calculateContextScore]
  rcases hsp : p.spread with - | s <;> rcases hou : p.over_under with - | ou <;>
    simp only [hsp, hou] <;> split_ifs <;> constructor <;> linarith

/-- C5 counterexample: a DOUBTFUL player with an absurd (but type-valid)
1000 points per game outscores a HEALTHY player under V1 despite the −500
adjustment — the stats score is unbounded, so no fixed injury constant can
force OUT/DOUBTFUL below every HEALTHY player for EVERY pair of inputs. -/
theorem c5_counterexample :
    doubtfulStar.injury_status = InjuryStatus.DOUBTFUL ∧
    basePlayer.injury_status = InjuryStatus.HEALTHY ∧
    v1ScoreOf basePlayer < v1ScoreOf doubtfulStar := by
  refine ⟨rfl, rfl, ?_⟩
  norm_num [v1ScoreOf, calculateStatsScore, calculateContextScore,
    getInjuryScoreAdjustment, doubtfulStar, basePlayer]

/-- C5 (amended): under realistic stat and context bounds
(0 ≤ ppg ≤ 60, 0 ≤ rpg ≤ 30, 0 ≤ apg ≤ 30, 100 ≤ DRTG ≤ 125,
90 ≤ pace ≤ 110 for both players), every OUT or DOUBTFUL player's V1
composite is strictly below every HEALTHY player's; and the injury
adjustments are exactly 0 (HEALTHY), −15 (QUESTIONABLE), −3 (PROBABLE). -/
theorem c5_amended_injury_sorts_bottom (p q : Player)
    (hp : p.injury_status = InjuryStatus.OUT ∨ p.injury_status = InjuryStatus.DOUBTFUL)
    (hq : q.injury_status = InjuryStatus.HEALTHY)
    (hp1 : 0 ≤ p.ppg) (hp2 : p.ppg ≤ 60) (hp3 : 0 ≤ p.rpg) (hp4 : p.rpg ≤ 30)
    (hp5 : 0 ≤ p.apg) (hp6 : p.apg ≤ 30)
    (hp7 : 100 ≤ p.opp_def_rating) (hp8 : p.opp_def_rating ≤ 125)
    (hp9 : 90 ≤ p.pace) (hp10 : p.pace ≤ 110)
    (hq1 : 0 ≤ q.ppg) (hq2 : q.ppg ≤ 60) (hq3 : 0 ≤ q.rpg) (hq4 : q.rpg ≤ 30)
    (hq5 : 0 ≤ q.apg) (hq6 : q.apg ≤ 30)
    (hq7 : 100 ≤ q.opp_def_rating) (hq8 : q.opp_def_rating ≤ 125)
    (hq9 : 90 ≤ q.pace) (hq10 : q.pace ≤ 110) :
    v1ScoreOf p < v1ScoreOf q ∧
    getInjuryScoreAdjustment InjuryStatus.HEALTHY = 0 ∧
    getInjuryScoreAdjustment InjuryStatus.QUESTIONABLE = -15 ∧
    getInjuryScoreAdjustment InjuryStatus.PROBABLE = -3 := by
  refine ⟨?_, rfl, rfl, rfl⟩
  have hps := calculateStatsScore_bounds p ⟨hp1, hp2⟩ ⟨hp3, hp4⟩ ⟨hp5, hp6⟩
  have hpc := calculateContextScore_bounds p ⟨hp7, hp8⟩ ⟨hp9, hp10⟩
  have hqs := calculateStatsScore_bounds q ⟨hq1, hq2⟩ ⟨hq3, hq4⟩ ⟨hq5, hq6⟩
  have hqc := calculateContextScore_bounds q ⟨hq7, hq8⟩ ⟨hq9, hq10⟩
  have hadj : getInjuryScoreAdjustment p.injury_status ≤ -500 := by
    rcases hp with h | h <;> rw [h] <;> norm_num [getInjuryScoreAdjustment]
  unfold v1ScoreOf
  rw [hq]
  have h0 : getInjuryScoreAdjustment InjuryStatus.HEALTHY = 0 := rfl
  rw [h0]
  have := hps.2
  have := hpc.2
  have := hqs.1
  have := hqc.1
  norm_num at *
  linarith

/-- C5 witness: the realistic DOUBTFUL star scores strictly below the
realistic HEALTHY role player. -/
theorem c5_amended_injury_sorts_bottom_witness :
    (doubtfulRealistic.injury_status = InjuryStatus.OUT ∨
      doubtfulRealistic.injury_status = InjuryStatus.DOUBTFUL) ∧
    healthyRealistic.injury_status = InjuryStatus.HEALTHY ∧
    (v1ScoreOf doubtfulRealistic < v1ScoreOf healthyRealistic ∧
      getInjuryScoreAdjustment InjuryStatus.HEALTHY = 0 ∧
      getInjuryScoreAdjustment InjuryStatus.QUESTIONABLE = -15 ∧
      getInjuryScoreAdjustment InjuryStatus.PROBABLE = -3) := by
  refine ⟨Or.inr rfl, rfl, ?_⟩
  exact c5_amended_injury_sorts_bottom doubtfulRealistic healthyRealistic (Or.inr rfl) rfl
    (by norm_num [doubtfulRealistic, basePlayer]) (by norm_num [doubtfulRealistic, basePlayer])
    (by norm_num [doubtfulRealistic, basePlayer]) (by norm_num [doubtfulRealistic, basePlayer])
    (by norm_num [doubtfulRealistic, basePlayer]) (by norm_num [doubtfulRealistic, basePlayer])
    (by norm_num [doubtfulRealistic, basePlayer]) (by norm_num [doubtfulRealistic, basePlayer])
    (by norm_num [doubtfulRealistic, basePlayer]) (by norm_num [doubtfulRealistic, basePlayer])
    (by norm_num [healthyRealistic, basePlayer]) (by norm_num [healthyRealistic, basePlayer])
    (by norm_num [healthyRealistic, basePlayer]) (by norm_num [healthyRealistic, basePlayer])
    (by norm_num [healthyRealistic, basePlayer]) (by norm_num [healthyRealistic, basePlayer])
    (by norm_num [healthyRealistic, basePlayer]) (by norm_num [healthyRealistic, basePlayer])
    (by norm_num [healthyRealistic, basePlayer]) (by norm_num [healthyRealistic, basePlayer])

/-! ## C9: rankPlayers mutates its ScoredPlayer records in place -/

/-- A single in-place field update changes nothing outside the rank
fields. -/
theorem eraseRanks_storeUpdate (s : List ScoredPlayer) (idx : ℕ)
    (f : ScoredPlayer → ScoredPlayer)
    (hf : ∀ r, eraseRanks (f r) = eraseRanks r) :
    (storeUpdate s idx f).map eraseRanks = s.map eraseRanks := by
  induction s generalizing idx with
  | nil => simp [storeUpdate]
  | cons a t ih =>
    cases idx with
    | zero => simp [storeUpdate, hf]
    | succ n =>
      simp only [storeUpdate, List.getD_cons_succ, List.set_cons_succ, List.map_cons]
      have := ih n
      simp only [storeUpdate] at this
      rw [this]

theorem eraseRanks_assignRankV1 (s : List ScoredPlayer) (perm : List ℕ) :
    (assignRankV1 s perm).map eraseRanks = s.map eraseRanks := by
  unfold assignRankV1
  generalize perm.enum = l
  induction l generalizing s with
  | nil => simp
  | cons iv t ih =>
    simp only [List.foldl_cons]
    rw [ih]
    exact eraseRanks_storeUpdate s iv.2 _ (fun r => rfl)

theorem eraseRanks_assignRankV2 (s : List ScoredPlayer) (perm : List ℕ) :
    (assignRankV2 s perm).map eraseRanks = s.map eraseRanks := by
  unfold assignRankV2
  generalize perm.enum = l
  induction l generalizing s with
  | nil => simp
  | cons iv t ih =>
    simp only [List.foldl_cons]
    rw [ih]
    exact eraseRanks_storeUpdate s iv.2 _ (fun r => rfl)

theorem eraseRanks_assignRankChange (s : List ScoredPlayer) (perm1 perm2 : List ℕ) :
    (assignRankChange s perm1 perm2).map eraseRanks = s.map eraseRanks := by
  unfold assignRankChange
  induction perm1 generalizing s with
  | nil => simp
  | cons idx t ih =>
    simp only [List.foldl_cons]
    rw [ih]
    exact eraseRanks_storeUpdate s idx _ (fun r => rfl)

/-- C9 counterexample: with a single input player, the merged ScoredPlayer
record is constructed with `rank_v1 = none` (JS: the optional field is
unassigned), yet after `rankPlayers` runs, THE SAME store cell holds
`rank_v1 = some 1`: the record was mutated in place by
`v1Ranked.forEach((p, i) => p.rank_v1 = i + 1)`, refuting "no entity is
mutated after construction". -/
theorem c9_counterexample :
    ((rankInitStore [soloPlayer]).getD 0 default).rank_v1 = none ∧
    ((rankFinalStore [soloPlayer]).getD 0 default).rank_v1 = some 1 ∧
    (rankFinalStore [soloPlayer]).getD 0 default ≠
      (rankInitStore [soloPlayer]).getD 0 default := by
  refine ⟨rfl, rfl, ?_⟩
  intro h
  have h1 : (some 1 : Option ℕ) = none := congrArg ScoredPlayer.rank_v1 h
  exact Option.noConfusion h1

/-- C9 (amended): `rankPlayers` DOES mutate its merged ScoredPlayer records
in place — but only their `rank_v1`, `rank_v2` and `rank_change` fields:
outside the rank fields the final store agrees exactly with the records as
constructed (which carry no rank values), and the input `EnhancedPlayerData`
records are copied (`{...p}`), never aliased or written. -/
theorem c9_amended_only_ranks_mutated (players : List Player) :
    (rankFinalStore players).map eraseRanks = rankInitStore players ∧
    ∀ r ∈ rankInitStore players,
      r.rank_v1 = none ∧ r.rank_v2 = none ∧ r.rank_change = none := by
  constructor
  · unfold rankFinalStore
    rw [eraseRanks_assignRankChange, eraseRanks_assignRankV2, eraseRanks_assignRankV1]
    unfold rankInitStore
    rw [List.map_map]
    rfl
  · intro r hr
    unfold rankInitStore at hr
    obtain ⟨p, -, rfl⟩ := List.mem_map.mp hr
    exact ⟨rfl, rfl, rfl⟩

/-- C9 witness: the frame property evaluated on the singleton input. -/
theorem c9_amended_only_ranks_mutated_witness :
    (rankFinalStore [soloPlayer]).map eraseRanks = rankInitStore [soloPlayer] ∧
    ∀ r ∈ rankInitStore [soloPlayer],
      r.rank_v1 = none ∧ r.rank_v2 = none ∧ r.rank_change = none :=
  c9_amended_only_ranks_mutated [soloPlayer]

/-! ## C3: sub-score and composite bounds of the stats-focused variant -/

theorem foldl_add_nonneg (l : List ℚ) (acc : ℚ) (h0 : 0 ≤ acc)
    (h : ∀ v ∈ l, 0 ≤ v) : 0 ≤ l.foldl (· + ·) acc := by
  induction l generalizing acc with
  | nil => simpa using h0
  | cons x xs ih =>
    simp only [List.foldl_cons]
    exact ih (acc + x) (by have := h x (by simp); linarith)
      (fun v hv => h v (by simp [hv]))

theorem listSum_nonneg (l : List ℚ) (h : ∀ v ∈ l, 0 ≤ v) : 0 ≤ listSum l :=
  foldl_add_nonneg l 0 le_rfl h

theorem foldl_weighted_nonneg (l : List ℚ) (k : ℕ) (acc : ℚ) (h0 : 0 ≤ acc)
    (h : ∀ v ∈ l, 0 ≤ v) :
    0 ≤ (l.enumFrom k).foldl (fun sum iv => sum + iv.2 * ((iv.1 : ℚ) + 1)) acc := by
  induction l generalizing k acc with
  | nil => simpa using h0
  | cons x xs ih =>
    simp only [List.enumFrom, List.foldl_cons]
    refine ih (k + 1) _ ?_ (fun v hv => h v (by simp [hv]))
    have hx := h x (by simp)
    have hk : (0 : ℚ) ≤ (k : ℚ) + 1 := by positivity
    nlinarith

theorem weightedPraSum_nonneg (l : List ℚ) (h : ∀ v ∈ l, 0 ≤ v) :
    0 ≤ weightedPraSum l := by
  unfold weightedPraSum List.enum
  exact foldl_weighted_nonneg l 0 0 le_rfl h

theorem weightSum_nonneg (n : ℕ) : 0 ≤ weightSum n := by
  apply listSum_nonneg
  intro v hv
  obtain ⟨i, -, hvi⟩ := List.mem_map.mp hv
  rw [← hvi]
  have h1 : (0 : ℚ) ≤ (i : ℚ) := Nat.cast_nonneg i
  linarith

theorem weightSum_pos (n : ℕ) (h : 0 < n) : 0 < weightSum n := by
  cases n with
  | zero => omega
  | succ m =>
    have hsplit : weightSum (m + 1) = weightSum m + ((m : ℚ) + 1) := by
      simp [weightSum, listSum, List.range_succ, List.foldl_append]
    have h0 : 0 ≤ weightSum m := weightSum_nonneg m
    have hm : (0 : ℚ) ≤ (m : ℚ) := by positivity
    rw [hsplit]
    linarith

theorem le_foldl_max (t : List ℚ) (acc : ℚ) : acc ≤ t.foldl max acc := by
  induction t generalizing acc with
  | nil => simp
  | cons x xs ih =>
    simp only [List.foldl_cons]
    exact le_trans (le_max_left acc x) (ih (max acc x))

theorem listMax_nonneg (l : List ℚ) (hne : l ≠ []) (h : ∀ v ∈ l, 0 ≤ v) :
    0 ≤ listMax l := by
  cases l with
  | nil => exact absurd rfl hne
  | cons x xs =>
    have hx := h x (by simp)
    exact le_trans hx (le_foldl_max xs x)

theorem clamp_bounds (s : ℚ) :
    0 ≤ min (max s 0) 100 ∧ min (max s 0) 100 ≤ 100 :=
  ⟨le_min (le_max_right s 0) (by norm_num), min_le_right _ _⟩

/-- Nonnegativity of the derived `avgPra`, `stdDev` and `maxPra` of the
stats-focused recent-form computation. -/
theorem pm2_recent_aux (sqrtFn : ℚ → ℚ) (p : Player)
    (hs : ∀ x, 0 ≤ sqrtFn x)
    (hg : ∀ v ∈ p.last_games_pra, 0 ≤ v)
    (hpa : 0 ≤ p.pra_avg) :
    0 ≤ (PM2.calculateRecentPraScore sqrtFn p).avgPra ∧
    0 ≤ (PM2.calculateRecentPraScore sqrtFn p).stdDev ∧
    0 ≤ (PM2.calculateRecentPraScore sqrtFn p).maxPra := by
  unfold PM2.calculateRecentPraScore
  by_cases hnil : p.last_games_pra = []
  · simp [hnil, hpa]
  · rw [if_neg hnil]
    simp only
    refine ⟨?_, ?_, ?_⟩
    · exact div_nonneg (listSum_nonneg _ hg) (by positivity)
    · split
      · exact hs _
      · exact le_rfl
    · exact listMax_nonneg _ hnil hg

/-- Recent-form sub-score of the stats-focused variant: within [−3, 105]
(the base normalisation is clamped to [0, 100], then +5 / −3 streak
adjustments are applied AFTER the clamp). -/
theorem pm2_recent_score_bounds (sqrtFn : ℚ → ℚ) (p : Player)
    (hg : ∀ v ∈ p.last_games_pra, 0 ≤ v) :
    -3 ≤ (PM2.calculateRecentPraScore sqrtFn p).score ∧
    (PM2.calculateRecentPraScore sqrtFn p).score ≤ 105 := by
  unfold PM2.calculateRecentPraScore
  by_cases hnil : p.last_games_pra = []
  · simp [hnil]
  · rw [if_neg hnil]
    simp only
    have hlen : 0 < p.last_games_pra.length := List.length_pos.mpr hnil
    have hbase0 : (0 : ℚ) ≤
        min (weightedPraSum p.last_games_pra / weightSum p.last_games_pra.length / 60 * 100)
          100 := by
      refine le_min ?_ (by norm_num)
      have h1 := weightedPraSum_nonneg _ hg
      have h2 := weightSum_pos _ hlen
      positivity
    have hbase100 :
        min (weightedPraSum p.last_games_pra / weightSum p.last_games_pra.length / 60 * 100)
          100 ≤ 100 := min_le_right _ _
    split_ifs <;> constructor <;> linarith

/-- Ceiling sub-score of the stats-focused variant: within [0, 100] for
nonnegative inputs. -/
theorem pm2_ceiling_score_bounds (p : Player) (avgPra stdDev maxPra : ℚ)
    (h1 : 0 ≤ avgPra) (h2 : 0 ≤ stdDev) (h3 : 0 ≤ maxPra)
    (h4 : 0 ≤ p.max_pra_last_10) :
    0 ≤ (PM2.calculateCeilingFactor p avgPra stdDev maxPra).score ∧
    (PM2.calculateCeilingFactor p avgPra stdDev maxPra).score ≤ 100 := by
  unfold PM2.calculateCeilingFactor
  simp only
  constructor
  · refine le_min ?_ (by norm_num)
    have htd : (0 : ℚ) ≤ min ((p.triple_doubles : ℚ) * 3) 15 :=
      le_min (by positivity) (by norm_num)
    have hcp : (0 : ℚ) ≤ maxPra * 0.55 + p.max_pra_last_10 * 0.25 + (avgPra + 1.5 * stdDev) * 0.20 := by
      nlinarith
    nlinarith
  · exact min_le_right _ _

/-- Volume sub-score of the stats-focused variant: within [0, 100] for
nonnegative usage rate and minutes. -/
theorem pm2_volume_score_bounds (p : Player)
    (husage : 0 ≤ p.usage_rate) (hmpg : 0 ≤ p.mpg) :
    0 ≤ PM2.calculateVolumeScore p ∧ PM2.calculateVolumeScore p ≤ 100 := by
  unfold PM2.calculateVolumeScore
  simp only
  set u := (if p.usage_rate = 0 then 20 else p.usage_rate) with hu_def
  set m := (if p.mpg = 0 then 28 else p.mpg) with hm_def
  have hur : (0 : ℚ) ≤ u := by
    rw [hu_def]
    split
    · norm_num
    · exact husage
  have hm0 : (0 : ℚ) ≤ m := by
    rw [hm_def]
    split
    · norm_num
    · exact hmpg
  have hms1 : (0 : ℚ) ≤ min (m / 36 * 60) 60 := le_min (by positivity) (by norm_num)
  have hus1 : (0 : ℚ) ≤ min (u / 30 * 40) 40 := le_min (by positivity) (by norm_num)
  constructor
  · refine le_min ?_ (by norm_num)
    split_ifs <;> linarith
  · exact min_le_right _ _

/-- Matchup sub-score of the stats-focused variant: clamped to [0, 100]. -/
theorem pm2_matchup_score_bounds (p : Player) :
    0 ≤ PM2.calculateMatchupScore p ∧ PM2.calculateMatchupScore p ≤ 100 := by
  unfold PM2.calculateMatchupScore
  simp only
  exact clamp_bounds _

/-- Environment sub-score of the stats-focused variant: clamped to [0, 100]. -/
theorem pm2_environment_score_bounds (p : Player) :
    0 ≤ PM2.calculateEnvironmentScore p ∧ PM2.calculateEnvironmentScore p ≤ 100 := by
  unfold PM2.calculateEnvironmentScore
  simp only
  exact clamp_bounds _

/-- C3 counterexample: for three 60-PRA games followed by three 80-PRA games
the stats-focused variant's recent/form sub-score is 105 — strictly above
100 — because the +5 hot-streak bonus is added after the `Math.min(·, 100)`
clamp.  (The recent-form SCORE never reads the standard deviation, so the
`Math.sqrt` stand-in `fun _ => 0` is irrelevant to it.) -/
theorem c3_counterexample :
    (PM2.calculateRecentPraScore (fun _ => 0) hotStreakPlayer).score = 105 ∧
    100 < (PM2.calculateRecentPraScore (fun _ => 0) hotStreakPlayer).score := by
  have hne : ([60, 60, 60, 80, 80, 80] : List ℚ) ≠ [] := by simp
  have hne3 : ([80, 80, 80] : List ℚ) ≠ [] := by simp
  norm_num [PM2.calculateRecentPraScore, hotStreakPlayer, basePlayer, listSum, listMax,
    weightedPraSum, weightSum, praVariance, List.enum, List.enumFrom, List.range,
    List.range.loop, min_def, max_def, if_neg hne, if_neg hne3]

/-- C3 (amended): for the stats-focused weighted variant, given a
nonnegative square root and nonnegative player inputs, the ceiling, volume,
matchup and environment sub-scores all lie in [0, 100]; the recent/form
sub-score lies in [0, 100] before the streak adjustment and hence in
[−3, 105] after it (it can exceed 100, see `c3_counterexample`); the
composite therefore lies in [−1.05, 101.75] rather than [0, 100]. -/
theorem c3_amended_subscore_bounds (sqrtFn : ℚ → ℚ) (p : Player)
    (hs : ∀ x, 0 ≤ sqrtFn x)
    (hg : ∀ v ∈ p.last_games_pra, 0 ≤ v)
    (hpa : 0 ≤ p.pra_avg) (hmax : 0 ≤ p.max_pra_last_10)
    (husage : 0 ≤ p.usage_rate) (hmpg : 0 ≤ p.mpg) :
    (-3 ≤ (PM2.calculateRecentPraScore sqrtFn p).score ∧
      (PM2.calculateRecentPraScore sqrtFn p).score ≤ 105) ∧
    (0 ≤ (PM2.calculateCeilingFactor p (PM2.calculateRecentPraScore sqrtFn p).avgPra
          (PM2.calculateRecentPraScore sqrtFn p).stdDev
          (PM2.calculateRecentPraScore sqrtFn p).maxPra).score ∧
      (PM2.calculateCeilingFactor p (PM2.calculateRecentPraScore sqrtFn p).avgPra
          (PM2.calculateRecentPraScore sqrtFn p).stdDev
          (PM2.calculateRecentPraScore sqrtFn p).maxPra).score ≤ 100) ∧
    (0 ≤ PM2.calculateVolumeScore p ∧ PM2.calculateVolumeScore p ≤ 100) ∧
    (0 ≤ PM2.calculateMatchupScore p ∧ PM2.calculateMatchupScore p ≤ 100) ∧
    (0 ≤ PM2.calculateEnvironmentScore p ∧ PM2.calculateEnvironmentScore p ≤ 100) ∧
    (-1.05 ≤ PM2.totalCeilingScore sqrtFn p ∧
      PM2.totalCeilingScore sqrtFn p ≤ 101.75) := by
  have haux := pm2_recent_aux sqrtFn p hs hg hpa
  have hr := pm2_recent_score_bounds sqrtFn p hg
  have hc := pm2_ceiling_score_bounds p _ _ _ haux.1 haux.2.1 haux.2.2 hmax
  have hv := pm2_volume_score_bounds p husage hmpg
  have hm := pm2_matchup_score_bounds p
  have he := pm2_environment_score_bounds p
  refine ⟨hr, hc, hv, hm, he, ?_, ?_⟩
  · unfold PM2.totalCeilingScore
    simp only
    norm_num
    linarith [hr.1, hr.2, hc.1, hc.2, hv.1, hv.2, hm.1, hm.2, he.1, he.2]
  · unfold PM2.totalCeilingScore
    simp only
    norm_num
    linarith [hr.1, hr.2, hc.1, hc.2, hv.1, hv.2, hm.1, hm.2, he.1, he.2]

/-- C3 witness: the sub-score and composite bounds evaluated at the neutral
player with `fun _ => 0` as the (nonnegative) square-root function. -/
theorem c3_amended_subscore_bounds_witness :
    (-3 ≤ (PM2.calculateRecentPraScore (fun _ => 0) basePlayer).score ∧
      (PM2.calculateRecentPraScore (fun _ => 0) basePlayer).score ≤ 105) ∧
    (0 ≤ (PM2.calculateCeilingFactor basePlayer
          (PM2.calculateRecentPraScore (fun _ => 0) basePlayer).avgPra
          (PM2.calculateRecentPraScore (fun _ => 0) basePlayer).stdDev
          (PM2.calculateRecentPraScore (fun _ => 0) basePlayer).maxPra).score ∧
      (PM2.calculateCeilingFactor basePlayer
          (PM2.calculateRecentPraScore (fun _ => 0) basePlayer).avgPra
          (PM2.calculateRecentPraScore (fun _ => 0) basePlayer).stdDev
          (PM2.calculateRecentPraScore (fun _ => 0) basePlayer).maxPra).score ≤ 100) ∧
    (0 ≤ PM2.calculateVolumeScore basePlayer ∧
      PM2.calculateVolumeScore basePlayer ≤ 100) ∧
    (0 ≤ PM2.calculateMatchupScore basePlayer ∧
      PM2.calculateMatchupScore basePlayer ≤ 100) ∧
    (0 ≤ PM2.calculateEnvironmentScore basePlayer ∧
      PM2.calculateEnvironmentScore basePlayer ≤ 100) ∧
    (-1.05 ≤ PM2.totalCeilingScore (fun _ => 0) basePlayer ∧
      PM2.totalCeilingScore (fun _ => 0) basePlayer ≤ 101.75) :=
  c3_amended_subscore_bounds (fun _ => 0) basePlayer (fun _ => le_rfl)
    (by simp [basePlayer]) (by norm_num [basePlayer]) (by norm_num [basePlayer])
    (by norm_num [basePlayer]) (by norm_num [basePlayer])
